import Mathlib

/-!
Shallow embedding of the metadata-abstraction layer of the `database` crate
(files `src/lib.rs`, `src/postgres.rs`, `src/error.rs`) and proofs about it.

Rust effects are made explicit:
* panics (`todo!()`, `unimplemented!()`, `unwrap`) are modelled by a dedicated
  constructor (`Outcome.panicked`, `ProcResult.panicked`) or by `Option.none`
  where the function otherwise returns a plain value;
* `Result<T, Error>` is modelled by `Except Error T`;
* `std::process::exit(1)` is modelled by `ProcResult.exited 1`;
* async I/O against the live engine is modelled by oracle parameters
  (the result a query would produce) or, where a claim needs engine-side
  query semantics, by an explicitly spec-modelled evaluation function.
-/

/-- Model of Rust `str::trim`: drop whitespace at both ends.  Defined over
the character list so the kernel can evaluate it. -/
def strTrim (s : String) : String :=
  ⟨((s.data.dropWhile Char.isWhitespace).reverse.dropWhile Char.isWhitespace).reverse⟩

/-- Model of Rust `str::to_lowercase` (ASCII range, which covers every
string this crate matches on). -/
def strLower (s : String) : String :=
  ⟨s.data.map Char.toLower⟩

/-- Model of Rust `str::to_uppercase` (ASCII range, which covers every
string this crate matches on). -/
def strUpper (s : String) : String :=
  ⟨s.data.map Char.toUpper⟩

/-- Model of Rust `str::starts_with`. -/
def strStartsWith (s pre : String) : Bool :=
  pre.data.isPrefixOf s.data

/-- Global error type, from `src/error.rs`.  `E(&'static str)` carries a
static message; `Io` and `Sql` wrap foreign errors, modelled by their
message text; `Unknown` is the catch-all variant.  Note the enum has no
`UnsupportedDriver`, `UnsupportedOperation` or `TypeMappingError` variant. -/
inductive Error where
  | E (msg : String)
  | Io (msg : String)
  | Sql (msg : String)
  | Unknown
deriving DecidableEq, Repr

/-- Driver tag, from `src/lib.rs` (`enum Driver`). -/
inductive Driver where
  | Mysql
  | Postgres
  | Sqlite
deriving DecidableEq, Repr

/-- `impl TryFrom<&str> for Driver` from `src/lib.rs`: trim, lower-case,
then test the three scheme prefixes in order; otherwise
`Err(Error::E("driver not support"))`.  Pure — no I/O. -/
def Driver.tryFrom (value : String) : Except Error Driver :=
  let driver := strLower (strTrim value)
  if strStartsWith driver "mysql" then Except.ok Driver.Mysql
  else if strStartsWith driver "postgres" then Except.ok Driver.Postgres
  else if strStartsWith driver "sqlite" then Except.ok Driver.Sqlite
  else Except.error (Error.E "driver not support")

/-- Canonical column type, from `src/lib.rs` (`enum ColumnType`, 39 variants). -/
inductive ColumnType where
  | Bigint
  | Binary
  | Bit
  | Blob
  | Char
  | Date
  | DateTime
  | Decimal
  | Double
  | Enum
  | Float
  | Geometry
  | GeometryCollection
  | Int
  | Integer
  | Json
  | LineString
  | LongBlob
  | LongText
  | MediumBlob
  | MediumInt
  | MediumText
  | MultilineString
  | MultiPoint
  | Numeric
  | Point
  | Polygon
  | Real
  | Set
  | SmallInt
  | Text
  | Time
  | Timestamp
  | TinyBlob
  | TinyInt
  | TinyText
  | Varbinary
  | VarChar
  | Year
deriving DecidableEq, Repr

/-- `impl Display for ColumnType` from `src/lib.rs`: every arm writes the
literal string of that arm of the source `match` verbatim. -/
def ColumnType.display : ColumnType → String
  | .Bigint => "BIGINT"
  | .Binary => "BIGINT"
  | .Bit => "BIGINT"
  | .Blob => "BIGINT"
  | .Char => "BIGINT"
  | .Date => "BIGINT"
  | .DateTime => "BIGINT"
  | .Decimal => "BIGINT"
  | .Double => "BIGINT"
  | .Enum => "BIGINT"
  | .Float => "BIGINT"
  | .Geometry => "BIGINT"
  | .GeometryCollection => "BIGINT"
  | .Int => "BIGINT"
  | .Integer => "BIGINT"
  | .Json => "BIGINT"
  | .LineString => "BIGINT"
  | .LongBlob => "BIGINT"
  | .LongText => "BIGINT"
  | .MediumBlob => "BIGINT"
  | .MediumInt => "BIGINT"
  | .MediumText => "BIGINT"
  | .MultilineString => "BIGINT"
  | .MultiPoint => "BIGINT"
  | .Numeric => "BIGINT"
  | .Point => "BIGINT"
  | .Polygon => "BIGINT"
  | .Real => "BIGINT"
  | .Set => "BIGINT"
  | .SmallInt => "BIGINT"
  | .Text => "BIGINT"
  | .Time => "BIGINT"
  | .Timestamp => "BIGINT"
  | .TinyBlob => "BIGINT"
  | .TinyInt => "BIGINT"
  | .TinyText => "BIGINT"
  | .Varbinary => "BIGINT"
  | .VarChar => "BIGINT"
  | .Year => "BIGINT"

/-- `impl From<String> for ColumnType` from `src/lib.rs`: match on
`value.trim().to_uppercase()`; the default arm is `unimplemented!()`,
a panic, modelled here as `none`. -/
def ColumnType.fromString (value : String) : Option ColumnType :=
  match strUpper (strTrim value) with
  | "BIGINT" => some .Bigint
  | "BINARY" => some .Binary
  | "BIT" => some .Bit
  | "BLOB" => some .Blob
  | "CHAR" => some .Char
  | "DATE" => some .Date
  | "DATETIME" => some .DateTime
  | "DECIMAL" => some .Decimal
  | "DOUBLE" => some .Double
  | "ENUM" => some .Enum
  | "FLOAT" => some .Float
  | "GEOMETRY" => some .Geometry
  | "GEOMETRYCOLLECTION" => some .GeometryCollection
  | "INT" => some .Int
  | "INTEGER" => some .Integer
  | "JSON" => some .Json
  | "LINESTRING" => some .LineString
  | "LONGBLOB" => some .LongBlob
  | "LONGTEXT" => some .LongText
  | "MEDIUMBLOB" => some .MediumBlob
  | "MEDIUMINT" => some .MediumInt
  | "MEDIUMTEXT" => some .MediumText
  | "MULTILINESTRING" => some .MultilineString
  | "MULTIPOINT" => some .MultiPoint
  | "NUMERIC" => some .Numeric
  | "POINT" => some .Point
  | "POLYGON" => some .Polygon
  | "REAL" => some .Real
  | "SET" => some .Set
  | "SMALLINT" => some .SmallInt
  | "TEXT" => some .Text
  | "TIME" => some .Time
  | "TIMESTAMP" => some .Timestamp
  | "TINYBLOB" => some .TinyBlob
  | "TINYINT" => some .TinyInt
  | "TINYTEXT" => some .TinyText
  | "VARBINARY" => some .Varbinary
  | "VARCHAR" => some .VarChar
  | "YEAR" => some .Year
  | _ => none

/-- The native spellings recognised by `ColumnType.fromString` (the literal
patterns of the source `match`). -/
def columnTypeSpellings : List String :=
  ["BIGINT", "BINARY", "BIT", "BLOB", "CHAR", "DATE", "DATETIME", "DECIMAL",
   "DOUBLE", "ENUM", "FLOAT", "GEOMETRY", "GEOMETRYCOLLECTION", "INT",
   "INTEGER", "JSON", "LINESTRING", "LONGBLOB", "LONGTEXT", "MEDIUMBLOB",
   "MEDIUMINT", "MEDIUMTEXT", "MULTILINESTRING", "MULTIPOINT", "NUMERIC",
   "POINT", "POLYGON", "REAL", "SET", "SMALLINT", "TEXT", "TIME",
   "TIMESTAMP", "TINYBLOB", "TINYINT", "TINYTEXT", "VARBINARY", "VARCHAR",
   "YEAR"]

/-- `fn t2t` from `src/postgres.rs`: PostgreSQL native type to Rust target
type name.  The default arm of the source `match` is `_ => "String"`. -/
def t2t (ty : String) : String :=
  match strUpper ty with
  | "BOOL" => "bool"
  | "CHAR" => "i8"
  | "SMALLINT" | "SMALLSERIAL" | "INT2" => "i16"
  | "INT" | "SERIAL" | "INT4" => "i32"
  | "BIGINT" | "BIGSERIAL" | "INT8" => "i64"
  | "REAL" | "FLOAT4" => "f32"
  | "DOUBLE PRECISION" | "FLOAT8" => "f64"
  | "BYTEA" => "Vec<u8>"
  | "VOID" => "()"
  | "INTERVAL" => "sqlx_postgres::types::PgInterval"
  | "INT8RANGE" | "INT4RANGE" | "TSRANGE" | "TSTZRANGE" | "DATERANGE"
  | "NUMRANGE" => "sqlx_postgres::types::PgRange<T> "
  | "MONEY" => "sqlx_postgres::types::PgMoney"
  | "LTREE" => "sqlx_postgres::types::PgLTree"
  | "LQUERY" => "sqlx_postgres::types::PgLQuery"
  | "YEAR" => "time::Date"
  | "DATE" => "time::Date"
  | "TIME" => "time::Time"
  | "TIMESTAMP" => "time::PrimitiveDateTime"
  | "TIMESTAMPTZ" => "time::OffsetDateTime"
  | "TIMETZ" => "sqlx_postgres::types::PgTimeTz"
  | "NUMERIC" => "bigdecimal::BigDecimal"
  | "JSON" | "JSONB" => "serde_json:JsonValue"
  | "UUID" => "uuid::Uuid"
  | "INET" | "CIDR" => "std::net::IpAddr"
  | "MACADDR" => "mac_address::MacAddress"
  | "BIT" | "VARBIT" => "bit_vec::BitVec"
  | _ => "String"

/-- The native spellings recognised by `t2t` (the literal patterns of the
source `match`, excluding the default arm). -/
def pgTypeSpellings : List String :=
  ["BOOL", "CHAR", "SMALLINT", "SMALLSERIAL", "INT2", "INT", "SERIAL",
   "INT4", "BIGINT", "BIGSERIAL", "INT8", "REAL", "FLOAT4",
   "DOUBLE PRECISION", "FLOAT8", "BYTEA", "VOID", "INTERVAL", "INT8RANGE",
   "INT4RANGE", "TSRANGE", "TSTZRANGE", "DATERANGE", "NUMRANGE", "MONEY",
   "LTREE", "LQUERY", "YEAR", "DATE", "TIME", "TIMESTAMP", "TIMESTAMPTZ",
   "TIMETZ", "NUMERIC", "JSON", "JSONB", "UUID", "INET", "CIDR", "MACADDR",
   "BIT", "VARBIT"]

/-- Canonical `Database` entity, from `src/lib.rs`. -/
structure Database where
  name : String
deriving DecidableEq, Repr

/-- Canonical `Schema` entity, from `src/lib.rs`. -/
structure Schema where
  name : String
deriving DecidableEq, Repr

/-- Canonical `Table` entity, from `src/lib.rs`. -/
structure Table where
  schema : String
  name : String
  comment : String
deriving DecidableEq, Repr

/-- Canonical `Column` entity, from `src/lib.rs`.  `type` is the source
field `r#type: Option<ColumnType>`; `rust_type` is the target Rust type
name. -/
structure Column where
  database : String
  schema : String
  table_name : String
  name : String
  type : Option ColumnType
  length : Option Int
  scale : Option Int
  default : Option String
  enum_values : Option (List String)
  comment : String
  is_null : Bool
  is_auto_incr : Bool
  is_unique : Bool
  is_primary_key : Bool
  is_unsigned : Bool
  rust_type : String
deriving DecidableEq, Repr

/-- Canonical `Index` entity, from `src/lib.rs`. -/
structure Index where
  table_name : String
  non_unique : Int
  key_name : String
  seq_in_index : Nat
  column_name : String
  sub_part : Option Int
  index_type : String
  index_comment : String
deriving DecidableEq, Repr

/-- `Column::default()` as produced by `#[derive(Default)]` on the source
struct: empty strings, `None` options, `false` booleans. -/
def Column.defaultValue : Column :=
  { database := "", schema := "", table_name := "", name := "", type := none,
    length := none, scale := none, default := none, enum_values := none,
    comment := "", is_null := false, is_auto_incr := false,
    is_unique := false, is_primary_key := false, is_unsigned := false,
    rust_type := "" }

/-- Row decoded by the Postgres tables query, from `src/postgres.rs`
(`struct Table`): the three `information_schema.tables` columns that are
not commented out, plus the `pg_description` join result. -/
structure PgTable where
  table_catalog : String
  table_schema : String
  table_name : String
  description : Option String
deriving DecidableEq, Repr

/-- `impl From<Table> for super::Table` from `src/postgres.rs`:
`comment: t.description.unwrap_or(t.table_name)`. -/
def PgTable.toTable (t : PgTable) : Table :=
  { schema := t.table_schema
    name := t.table_name
    comment := t.description.getD t.table_name }

/-- Row decoded by the Postgres columns query, from `src/postgres.rs`
(`struct Column`).  `data_type` receives `udt_name` and `is_nullable` is
the raw catalog string (the description column selected by the query has
no matching struct field). -/
structure PgColumn where
  table_catalog : String
  table_schema : String
  table_name : String
  column_name : String
  ordinal_position : Int
  column_default : Option String
  is_nullable : String
  data_type : String
  character_maximum_length : Option Int
deriving DecidableEq, Repr

/-- `impl From<Column> for super::Column` from `src/postgres.rs`: only
`database`, `schema`, `table_name`, `name`, `length` and `default` are
taken from the row; all remaining fields come from `..Default::default()`.
The binding `_ty` mirrors the source `let ty = t2t(...)`, whose value the
source never uses. -/
def PgColumn.toColumn (c : PgColumn) : Column :=
  let _ty := t2t (strUpper c.data_type)
  { Column.defaultValue with
    database := c.table_catalog
    schema := c.table_schema
    table_name := c.table_name
    name := c.column_name
    length := c.character_maximum_length
    default := c.column_default }

/-- Result of one adapter operation.  `panicked` models a Rust panic
(`todo!()`), which produces neither a value nor an error value. -/
inductive Outcome (α : Type) where
  | ok (v : α)
  | err (e : Error)
  | panicked
deriving DecidableEq, Repr

/-- `PostgresMetadata::databases` from `src/postgres.rs`: the body is
`todo!()`, an unconditional panic. -/
def PostgresMetadata.databases : Outcome (List Database) :=
  Outcome.panicked

/-- `PostgresMetadata::schemas` from `src/postgres.rs`: the body is
`todo!()`, an unconditional panic. -/
def PostgresMetadata.schemas : Outcome (List Schema) :=
  Outcome.panicked

/-- `PostgresMetadata::indexs` from `src/postgres.rs`: the body is
`todo!()`, an unconditional panic, whatever the arguments. -/
def PostgresMetadata.indexs (_database _schema _table_name : String) :
    Outcome (List Index) :=
  Outcome.panicked

/-- `PostgresMetadata::create_table_sql` from `src/postgres.rs`: the body
is `todo!()`, an unconditional panic, whatever the arguments. -/
def PostgresMetadata.create_table_sql (_database _schema _table_name : String) :
    Outcome String :=
  Outcome.panicked

/-- WHERE clause of the Postgres tables query as built by
`PostgresMetadata::tables` in `src/postgres.rs`: the catalog filter is
`tb.table_catalog = current_database()` when `database` is empty and the
placeholder `tb.table_catalog = $1` (bound to `database`) otherwise, and
the schema filter is `tb.table_schema = $2`.  Modelled from the spec:
evaluation of this clause by the engine, with `curdb` the value of
`current_database()`. -/
def tablesFilter (curdb database schema : String) (r : PgTable) : Bool :=
  (if database.isEmpty then r.table_catalog == curdb
   else r.table_catalog == database)
  && (r.table_schema == schema)

/-- `PostgresMetadata::tables` from `src/postgres.rs`, with the engine
round-trip replaced by filtering an abstract joined catalog (`catalog`
stands for the rows of `information_schema.tables` joined with
`pg_description`); every decoded row is converted by the `From` impl.
The query has no ORDER BY, so rows keep catalog order. -/
def PostgresMetadata.tables (curdb : String) (catalog : List PgTable)
    (database schema : String) : List Table :=
  (catalog.filter (tablesFilter curdb database schema)).map PgTable.toTable

/-- WHERE clause of the Postgres columns query as built by
`PostgresMetadata::columns` in `src/postgres.rs`: catalog filter
`current_database()` vs `$1` as for tables, schema filter
`current_schema()` when `schema` is empty vs `$2` otherwise, and
`col.TABLE_NAME = $3`.  Modelled from the spec: evaluation of this clause
by the engine, with `curdb`/`curschema` the values of
`current_database()`/`current_schema()`. -/
def columnsFilter (curdb curschema database schema table_name : String)
    (r : PgColumn) : Bool :=
  (if database.isEmpty then r.table_catalog == curdb
   else r.table_catalog == database)
  && (if schema.isEmpty then r.table_schema == curschema
      else r.table_schema == schema)
  && (r.table_name == table_name)

/-- `PostgresMetadata::columns` from `src/postgres.rs`, with the engine
round-trip replaced by filtering an abstract joined catalog; every decoded
row is converted by the `From` impl.  The query's
`ORDER BY col.TABLE_NAME, col.ordinal_position` reorders rows of the one
selected table by ordinal position; it does not depend on the WHERE
branch taken and is left as catalog order here. -/
def PostgresMetadata.columns (curdb curschema : String)
    (catalog : List PgColumn) (database schema table_name : String) :
    List Column :=
  (catalog.filter (columnsFilter curdb curschema database schema table_name)).map
    PgColumn.toColumn

/-- The per-table loop bodies of `fetch_table_column` in `src/lib.rs`:
fetch the column list of each named table in order, aborting at the first
failing fetch (the `?` inside the loop). -/
def fetchColumnsLoop (columnsR : String → Except Error (List Column)) :
    List String → Except Error (List (List Column))
  | [] => Except.ok []
  | n :: rest => do
      let cs ← columnsR n
      let others ← fetchColumnsLoop columnsR rest
      Except.ok (cs :: others)

/-- `fetch_table_column` from `src/lib.rs`.  The live metadata object is
abstracted into two oracles: `tablesR` is the result of
`metadata.tables("", schema)` and `columnsR name` the result of
`metadata.columns("", schema, name)` (the `url` and `schema` arguments are
fixed inside the oracles).  The source branches on
`table_names.is_empty()`, iterating over the discovered tables or over the
allowlist, and finally flattens the collected per-table lists. -/
def fetch_table_column (tablesR : Except Error (List Table))
    (columnsR : String → Except Error (List Column))
    (table_names : List String) :
    Except Error (List Table × List Column) := do
  let tables ← tablesR
  let columns ←
    if table_names.isEmpty then
      fetchColumnsLoop columnsR (tables.map Table.name)
    else
      fetchColumnsLoop columnsR table_names
  Except.ok (tables, columns.flatten)

/-- Result of running a Rust function whose failure modes are process
exit and panic rather than a returned error. -/
inductive ProcResult (α : Type) where
  | ok (v : α)
  | exited (code : Nat)
  | panicked
deriving DecidableEq, Repr

/-- `database_metadata` from `src/lib.rs`: on driver-resolution failure it
prints and calls `std::process::exit(1)`; otherwise it connects the pool
and `unwrap`s the connection result (panicking on failure) before boxing
the adapter.  `connect d` models `Pool::connect(url)` for the resolved
driver (`none` = connection failure); the returned adapter is represented
by its driver tag.  The return type has no error channel. -/
def database_metadata (connect : Driver → Option Unit) (url : String) :
    ProcResult Driver :=
  match Driver.tryFrom url with
  | Except.error _ => ProcResult.exited 1
  | Except.ok driver =>
    match connect driver with
    | some _ => ProcResult.ok driver
    | none => ProcResult.panicked

/-- Concrete table value used by witnesses. -/
def usersTable : Table :=
  { schema := "public", name := "users", comment := "users" }

/-- Concrete decoded Postgres column row used by witnesses and
counterexamples: column `users.id`, nullable, native type `int4`. -/
def usersIdRow : PgColumn :=
  { table_catalog := "db", table_schema := "public", table_name := "users",
    column_name := "id", ordinal_position := 1, column_default := none,
    is_nullable := "YES", data_type := "int4",
    character_maximum_length := none }

/-- Concrete column oracle that fails for every table, used by witnesses. -/
def failColumns : String → Except Error (List Column) :=
  fun _ => Except.error (Error.E "boom")

/-- Concrete column oracle returning one default column tagged with the
table name, used by witnesses. -/
def tagColumns : String → Except Error (List Column) :=
  fun n => Except.ok [{ Column.defaultValue with table_name := n }]

/-- Concrete decoded Postgres table row with a description. -/
def usersTableRowDesc : PgTable :=
  { table_catalog := "db", table_schema := "public", table_name := "users",
    description := some "user table" }

/-- Concrete decoded Postgres table row without a description. -/
def usersTableRowNone : PgTable :=
  { table_catalog := "db", table_schema := "public", table_name := "users",
    description := none }

/-- Characterisation of a successful per-table fetch loop: the collected
lists correspond one-to-one, in order, to successful fetches of the given
names. -/
theorem fetchColumnsLoop_ok {columnsR : String → Except Error (List Column)}
    {ns : List String} {ls : List (List Column)}
    (h : fetchColumnsLoop columnsR ns = Except.ok ls) :
    List.Forall₂ (fun n cs => columnsR n = Except.ok cs) ns ls := by
  induction ns generalizing ls with
  | nil =>
    simp only [fetchColumnsLoop, Except.ok.injEq] at h
    subst h
    exact List.Forall₂.nil
  | cons n rest ih =>
    simp only [fetchColumnsLoop, bind, Except.bind] at h
    cases hf : columnsR n with
    | error e => rw [hf] at h; exact absurd h (by simp)
    | ok cs =>
      rw [hf] at h
      cases hrest : fetchColumnsLoop columnsR rest with
      | error e => rw [hrest] at h; exact absurd h (by simp)
      | ok others =>
        rw [hrest] at h
        simp only [Except.ok.injEq] at h
        subst h
        exact List.Forall₂.cons hf (ih hrest)

/-- If some name in the list has a failing fetch, the per-table fetch loop
fails, and its error is the error of one of the failing names. -/
theorem fetchColumnsLoop_error {columnsR : String → Except Error (List Column)}
    {ns : List String}
    (h : ∃ n ∈ ns, ∃ e, columnsR n = Except.error e) :
    ∃ e, fetchColumnsLoop columnsR ns = Except.error e ∧
      ∃ n ∈ ns, columnsR n = Except.error e := by
  induction ns with
  | nil => obtain ⟨n, hn, -⟩ := h; exact absurd hn (by simp)
  | cons n rest ih =>
    cases hf : columnsR n with
    | error e =>
      refine ⟨e, ?_, n, by simp, hf⟩
      simp [fetchColumnsLoop, bind, Except.bind, hf]
    | ok cs =>
      obtain ⟨n', hn', e', he'⟩ := h
      have hrest : ∃ m ∈ rest, ∃ e, columnsR m = Except.error e := by
        rcases List.mem_cons.mp hn' with rfl | hmem
        · rw [hf] at he'; exact absurd he' (by simp)
        · exact ⟨n', hmem, e', he'⟩
      obtain ⟨e, hloop, m, hm, hme⟩ := ih hrest
      refine ⟨e, ?_, m, List.mem_cons_of_mem _ hm, hme⟩
      simp [fetchColumnsLoop, bind, Except.bind, hf, hloop]


/-- C1 counterexample: the PostGIS native type `GEOGRAPHY` is recognised by
neither mapping, yet `t2t` falls back to the generic target type `String`
instead of failing with a typed error, and `ColumnType::from` panics
(modelled as `none`) instead of producing a `TypeMappingError`. -/
theorem c1_counterexample :
    t2t "GEOGRAPHY" = "String" ∧ ColumnType.fromString "GEOGRAPHY" = none := by
  constructor
  · decide
  · decide

/-- C1 (amended): for every native type string whose trimmed, upper-cased
form is not one of the recognised spellings, `ColumnType::from` panics via
`unimplemented!()` (modelled as `none`) rather than returning a typed
`TypeMappingError` (no such error variant exists), and for every native
type string whose upper-cased form `t2t` does not recognise, `t2t` falls
back to the generic target type name `String` rather than failing. -/
theorem c1_amended (s t : String)
    (hs : strUpper (strTrim s) ∉ columnTypeSpellings)
    (ht : strUpper t ∉ pgTypeSpellings) :
    ColumnType.fromString s = none ∧ t2t t = "String" := by
  constructor
  · unfold ColumnType.fromString
    split <;> first
      | rfl
      | (rename_i heq; exact absurd (by decide) (heq ▸ hs))
  · unfold t2t
    split <;> first
      | rfl
      | (rename_i heq; exact absurd (by decide) (heq ▸ ht))

/-- Witness for C1 (amended) at the concrete input `GEOGRAPHY`. -/
theorem c1_amended_witness :
    (strUpper (strTrim "GEOGRAPHY") ∉ columnTypeSpellings) ∧
    (strUpper "GEOGRAPHY" ∉ pgTypeSpellings) ∧
    (ColumnType.fromString "GEOGRAPHY" = none ∧ t2t "GEOGRAPHY" = "String") :=
  ⟨by decide, by decide, c1_amended "GEOGRAPHY" "GEOGRAPHY" (by decide) (by decide)⟩

/-- C2 counterexample: invoking `PostgresMetadata::databases` aborts with a
panic (`todo!()`); it does not return a typed error value of any kind. -/
theorem c2_counterexample :
    PostgresMetadata.databases = Outcome.panicked ∧
    ¬ ∃ e, PostgresMetadata.databases = Outcome.err e := by
  refine ⟨rfl, ?_⟩
  rintro ⟨e, h⟩
  simp [PostgresMetadata.databases] at h

/-- C2 (amended): each Metadata Provider operation the Postgres adapter
does not implement (`databases`, `schemas`, `indexs`, `create_table_sql`)
aborts via a `todo!()` panic for every argument — it produces no value at
all: neither a typed "unsupported operation" error (the error type has no
such variant) nor an empty collection. -/
theorem c2_amended :
    PostgresMetadata.databases = Outcome.panicked ∧
    PostgresMetadata.schemas = Outcome.panicked ∧
    (∀ d s t, PostgresMetadata.indexs d s t = Outcome.panicked) ∧
    (∀ d s t, PostgresMetadata.create_table_sql d s t = Outcome.panicked) :=
  ⟨rfl, rfl, fun _ _ _ => rfl, fun _ _ _ => rfl⟩

/-- C3 counterexample: a successful `columns` call over a one-row catalog
(row `users.id`, `is_nullable = "YES"`, native type `int4`) returns a
column whose canonical `type` is `none`, whose `is_null` flag is `false`
despite the row saying `YES`, and whose target-language type is the empty
placeholder even though the Type Mapper would produce `i32`. -/
theorem c3_counterexample :
    ((PostgresMetadata.columns "db" "public" [usersIdRow]
        "db" "public" "users").map
      (fun c => (c.type, c.is_null, c.rust_type)) = [(none, false, "")]) ∧
    t2t "int4" = "i32" := by
  constructor
  · rfl
  · decide

/-- C3 (amended): every `Column` produced by a successful Postgres
`columns` call carries only `database`, `schema`, `table_name`, `name`,
`length` and `default` from its decoded row; its canonical `type` is
`none`, `scale` and `enum_values` are `none`, `comment` and `rust_type`
are empty, and all five boolean flags are `false`, regardless of the
row's `is_nullable` and `data_type` — the Type Mapper result is computed
and then discarded. -/
theorem c3_amended (curdb curschema : String) (catalog : List PgColumn)
    (database schema table_name : String) :
    ∀ c ∈ PostgresMetadata.columns curdb curschema catalog database schema
        table_name,
      c.type = none ∧ c.scale = none ∧ c.enum_values = none ∧
      c.comment = "" ∧ c.rust_type = "" ∧
      c.is_null = false ∧ c.is_auto_incr = false ∧ c.is_unique = false ∧
      c.is_primary_key = false ∧ c.is_unsigned = false ∧
      ∃ r ∈ catalog,
        c = PgColumn.toColumn r ∧
        c.database = r.table_catalog ∧ c.schema = r.table_schema ∧
        c.table_name = r.table_name ∧ c.name = r.column_name ∧
        c.length = r.character_maximum_length ∧
        c.default = r.column_default := by
  intro c hc
  simp only [PostgresMetadata.columns, List.mem_map, List.mem_filter] at hc
  obtain ⟨r, ⟨hrmem, -⟩, rfl⟩ := hc
  refine ⟨rfl, rfl, rfl, rfl, rfl, rfl, rfl, rfl, rfl, rfl,
    r, hrmem, rfl, rfl, rfl, rfl, rfl, rfl, rfl⟩

/-- Witness for C3 (amended) at a concrete one-row catalog. -/
theorem c3_amended_witness :
    (PgColumn.toColumn usersIdRow ∈
      PostgresMetadata.columns "db" "public" [usersIdRow]
        "db" "public" "users") ∧
    (PgColumn.toColumn usersIdRow).type = none :=
  ⟨by decide,
   (c3_amended "db" "public" [usersIdRow] "db" "public" "users"
      _ (by decide)).1⟩

/-- C4: if the table discovery succeeds but the per-table column fetch of
any name in the processed list (the allowlist when non-empty, otherwise
the discovered table names) fails, then `fetch_table_column` returns an
error — the error of a failing fetch — and no `(tables, columns)` pair. -/
theorem c4_abort_on_failure (tablesR : Except Error (List Table))
    (columnsR : String → Except Error (List Column))
    (table_names : List String) (tbls : List Table)
    (htab : tablesR = Except.ok tbls)
    (hfail : ∃ n ∈ (if table_names.isEmpty then tbls.map Table.name
                    else table_names),
      ∃ e, columnsR n = Except.error e) :
    ∃ e, fetch_table_column tablesR columnsR table_names = Except.error e ∧
      ∃ n ∈ (if table_names.isEmpty then tbls.map Table.name
             else table_names),
        columnsR n = Except.error e := by
  subst htab
  by_cases hempty : table_names.isEmpty
  · rw [if_pos hempty] at hfail
    obtain ⟨e, hloop, n, hn, hne⟩ := fetchColumnsLoop_error hfail
    refine ⟨e, ?_, ?_⟩
    · simp [fetch_table_column, bind, Except.bind, hempty, hloop]
    · rw [if_pos hempty]; exact ⟨n, hn, hne⟩
  · rw [if_neg hempty] at hfail
    obtain ⟨e, hloop, n, hn, hne⟩ := fetchColumnsLoop_error hfail
    refine ⟨e, ?_, ?_⟩
    · simp [fetch_table_column, bind, Except.bind, hempty, hloop]
    · rw [if_neg hempty]; exact ⟨n, hn, hne⟩

/-- Witness for C4 at a concrete instance: one discovered table, an
explicit allowlist `["users"]`, and a column oracle that always fails. -/
theorem c4_abort_on_failure_witness :
    ((Except.ok [usersTable] : Except Error (List Table))
      = Except.ok [usersTable]) ∧
    (∃ n ∈ (if (["users"] : List String).isEmpty
            then [usersTable].map Table.name else ["users"]),
      ∃ e, failColumns n = Except.error e) ∧
    (∃ e, fetch_table_column (Except.ok [usersTable]) failColumns ["users"]
        = Except.error e ∧
      ∃ n ∈ (if (["users"] : List String).isEmpty
             then [usersTable].map Table.name else ["users"]),
        failColumns n = Except.error e) :=
  ⟨rfl, ⟨"users", by simp, Error.E "boom", rfl⟩,
   c4_abort_on_failure (Except.ok [usersTable]) failColumns ["users"] _ rfl
     ⟨"users", by simp, Error.E "boom", rfl⟩⟩

/-- C5: a successful `fetch_table_column` returns exactly the discovered
tables together with the concatenation, in order, of the per-table column
lists of the processed names — the non-empty allowlist in its given
order, or otherwise every discovered table in discovery order. -/
theorem c5_concatenation (tablesR : Except Error (List Table))
    (columnsR : String → Except Error (List Column))
    (table_names : List String) (tbls : List Table) (cols : List Column)
    (h : fetch_table_column tablesR columnsR table_names
        = Except.ok (tbls, cols)) :
    tablesR = Except.ok tbls ∧
    ∃ ls : List (List Column),
      List.Forall₂ (fun n cs => columnsR n = Except.ok cs)
        (if table_names.isEmpty then tbls.map Table.name else table_names)
        ls ∧
      cols = ls.flatten := by
  cases htab : tablesR with
  | error e =>
    rw [htab] at h
    simp [fetch_table_column, bind, Except.bind] at h
  | ok tbls' =>
    rw [htab] at h
    by_cases hempty : table_names.isEmpty
    · cases hloop : fetchColumnsLoop columnsR (tbls'.map Table.name) with
      | error e =>
        simp [fetch_table_column, bind, Except.bind, hempty, hloop] at h
      | ok ls =>
        simp only [fetch_table_column, bind, Except.bind, hempty, if_true,
          hloop, Except.ok.injEq, Prod.mk.injEq] at h
        obtain ⟨rfl, rfl⟩ := h
        refine ⟨rfl, ls, ?_, rfl⟩
        rw [if_pos hempty]
        exact fetchColumnsLoop_ok hloop
    · cases hloop : fetchColumnsLoop columnsR table_names with
      | error e =>
        simp [fetch_table_column, bind, Except.bind, hempty, hloop] at h
      | ok ls =>
        simp only [fetch_table_column, bind, Except.bind, hempty, if_false,
          Bool.not_eq_true, hloop, Except.ok.injEq, Prod.mk.injEq] at h
        obtain ⟨rfl, rfl⟩ := h
        refine ⟨rfl, ls, ?_, rfl⟩
        rw [if_neg hempty]
        exact fetchColumnsLoop_ok hloop

/-- Witness for C5 at a concrete instance: one discovered table and the
explicit allowlist `["orders", "users"]`. -/
theorem c5_concatenation_witness :
    (fetch_table_column (Except.ok [usersTable]) tagColumns
        ["orders", "users"]
      = Except.ok ([usersTable],
          [{ Column.defaultValue with table_name := "orders" },
           { Column.defaultValue with table_name := "users" }])) ∧
    ((Except.ok [usersTable] : Except Error (List Table))
        = Except.ok [usersTable] ∧
      ∃ ls : List (List Column),
        List.Forall₂ (fun n cs => tagColumns n = Except.ok cs)
          (if (["orders", "users"] : List String).isEmpty
           then [usersTable].map Table.name else ["orders", "users"]) ls ∧
        [{ Column.defaultValue with table_name := "orders" },
         { Column.defaultValue with table_name := "users" }] = ls.flatten) :=
  ⟨rfl, c5_concatenation (Except.ok [usersTable]) tagColumns
    ["orders", "users"] [usersTable]
    [{ Column.defaultValue with table_name := "orders" },
     { Column.defaultValue with table_name := "users" }] rfl⟩

/-- Two character-list prefixes with different head characters cannot both
be prefixes of one list. -/
theorem isPrefixOf_head_excl {a b : Char} {p q l : List Char} (hab : a ≠ b)
    (h : (a :: p).isPrefixOf l = true) : (b :: q).isPrefixOf l = false := by
  cases l with
  | nil => simp [List.isPrefixOf] at h
  | cons c cs =>
    simp only [List.isPrefixOf, Bool.and_eq_true, beq_iff_eq] at h
    obtain ⟨rfl, -⟩ := h
    have hba : (b == a) = false := beq_eq_false_iff_ne.mpr (Ne.symm hab)
    simp [List.isPrefixOf, hba]

/-- C6: `Driver::try_from` maps every URL whose trimmed, lower-cased form
starts with `mysql`, `postgres` or `sqlite` to `Ok` of the matching
dialect tag, and every other URL to the error
`Error::E("driver not support")`.  `Driver.tryFrom` is a pure function —
resolution performs no I/O. -/
theorem c6_driver_resolution (s : String) :
    (strStartsWith (strLower (strTrim s)) "mysql" = true →
      Driver.tryFrom s = Except.ok Driver.Mysql) ∧
    (strStartsWith (strLower (strTrim s)) "postgres" = true →
      Driver.tryFrom s = Except.ok Driver.Postgres) ∧
    (strStartsWith (strLower (strTrim s)) "sqlite" = true →
      Driver.tryFrom s = Except.ok Driver.Sqlite) ∧
    (strStartsWith (strLower (strTrim s)) "mysql" = false →
      strStartsWith (strLower (strTrim s)) "postgres" = false →
      strStartsWith (strLower (strTrim s)) "sqlite" = false →
      Driver.tryFrom s = Except.error (Error.E "driver not support")) := by
  refine ⟨?_, ?_, ?_, ?_⟩
  · intro h
    simp [Driver.tryFrom, h]
  · intro h
    have hm : strStartsWith (strLower (strTrim s)) "mysql" = false :=
      isPrefixOf_head_excl (show ('p' : Char) ≠ 'm' by decide) h
    simp [Driver.tryFrom, h, hm]
  · intro h
    have hm : strStartsWith (strLower (strTrim s)) "mysql" = false :=
      isPrefixOf_head_excl (show ('s' : Char) ≠ 'm' by decide) h
    have hp : strStartsWith (strLower (strTrim s)) "postgres" = false :=
      isPrefixOf_head_excl (show ('s' : Char) ≠ 'p' by decide) h
    simp [Driver.tryFrom, h, hm, hp]
  · intro h1 h2 h3
    simp [Driver.tryFrom, h1, h2, h3]

/-- Witness for C6 at the concrete URLs `" MySQL://u@h/db"` (recognised,
case-insensitively, after trimming) and `"ftp://host/db"`
(unrecognised). -/
theorem c6_driver_resolution_witness :
    (strStartsWith (strLower (strTrim " MySQL://u@h/db")) "mysql" = true ∧
      Driver.tryFrom " MySQL://u@h/db" = Except.ok Driver.Mysql) ∧
    (strStartsWith (strLower (strTrim "ftp://host/db")) "mysql" = false ∧
      strStartsWith (strLower (strTrim "ftp://host/db")) "postgres" = false ∧
      strStartsWith (strLower (strTrim "ftp://host/db")) "sqlite" = false ∧
      Driver.tryFrom "ftp://host/db"
        = Except.error (Error.E "driver not support")) :=
  ⟨⟨by decide, (c6_driver_resolution " MySQL://u@h/db").1 (by decide)⟩,
   ⟨by decide, by decide, by decide,
    (c6_driver_resolution "ftp://host/db").2.2.2
      (by decide) (by decide) (by decide)⟩⟩

/-- C7: for both `tables` and `columns` of the Postgres adapter, an empty
`database` argument selects the connection's current database (the query
filters on `current_database()`), so the result over any catalog equals
the result of passing the current database name explicitly (which the
query filters with the bound placeholder `$1`). -/
theorem c7_empty_database (curdb curschema : String) (tcat : List PgTable)
    (ccat : List PgColumn) (schema table_name : String) :
    PostgresMetadata.tables curdb tcat "" schema
      = PostgresMetadata.tables curdb tcat curdb schema ∧
    PostgresMetadata.columns curdb curschema ccat "" schema table_name
      = PostgresMetadata.columns curdb curschema ccat curdb schema
          table_name := by
  constructor
  · have hf : tablesFilter curdb "" schema = tablesFilter curdb curdb schema := by
      funext r
      unfold tablesFilter
      rw [if_pos (show ("" : String).isEmpty = true from rfl), ite_self]
    unfold PostgresMetadata.tables
    rw [hf]
  · have hf : columnsFilter curdb curschema "" schema table_name
        = columnsFilter curdb curschema curdb schema table_name := by
      funext r
      unfold columnsFilter
      rw [if_pos (show ("" : String).isEmpty = true from rfl), ite_self]
    unfold PostgresMetadata.columns
    rw [hf]

/-- C8: the canonical `Table` built from a decoded Postgres row has the
engine-provided description as its comment when one exists, and the
table's own name otherwise. -/
theorem c8_table_comment (t : PgTable) :
    (∀ d, t.description = some d → (PgTable.toTable t).comment = d) ∧
    (t.description = none → (PgTable.toTable t).comment = t.table_name) := by
  constructor
  · intro d hd
    simp [PgTable.toTable, hd]
  · intro hd
    simp [PgTable.toTable, hd]

/-- Witness for C8 at two concrete rows, with and without a description. -/
theorem c8_table_comment_witness :
    (usersTableRowDesc.description = some "user table" ∧
      (PgTable.toTable usersTableRowDesc).comment = "user table") ∧
    (usersTableRowNone.description = none ∧
      (PgTable.toTable usersTableRowNone).comment = "users") :=
  ⟨⟨rfl, (c8_table_comment usersTableRowDesc).1 "user table" rfl⟩,
   ⟨rfl, (c8_table_comment usersTableRowNone).2 rfl⟩⟩

/-- C9: `database_metadata` exposes no error value to its caller: when
driver resolution fails it exits the process with code 1, when the pool
connection fails it panics (the `unwrap`), when both succeed it returns
the adapter, and those three are the only possible outcomes — the return
type has no error channel. -/
theorem c9_no_error_channel (connect : Driver → Option Unit) (url : String) :
    (∀ e, Driver.tryFrom url = Except.error e →
      database_metadata connect url = ProcResult.exited 1) ∧
    (∀ d, Driver.tryFrom url = Except.ok d → connect d = none →
      database_metadata connect url = ProcResult.panicked) ∧
    (∀ d u, Driver.tryFrom url = Except.ok d → connect d = some u →
      database_metadata connect url = ProcResult.ok d) ∧
    (database_metadata connect url = ProcResult.exited 1 ∨
      database_metadata connect url = ProcResult.panicked ∨
      ∃ d, database_metadata connect url = ProcResult.ok d) := by
  refine ⟨?_, ?_, ?_, ?_⟩
  · intro e he
    simp [database_metadata, he]
  · intro d hd hc
    simp [database_metadata, hd, hc]
  · intro d u hd hc
    simp [database_metadata, hd, hc]
  · cases h : Driver.tryFrom url with
    | error e => exact Or.inl (by simp [database_metadata, h])
    | ok d =>
      cases hc : connect d with
      | none => exact Or.inr (Or.inl (by simp [database_metadata, h, hc]))
      | some u => exact Or.inr (Or.inr ⟨d, by simp [database_metadata, h, hc]⟩)

/-- Witness for C9: an unrecognised scheme exits with code 1 even when the
pool would connect, and a failing pool connection panics for a recognised
scheme. -/
theorem c9_no_error_channel_witness :
    (Driver.tryFrom "ftp://host/db"
        = Except.error (Error.E "driver not support") ∧
      database_metadata (fun _ => some ()) "ftp://host/db"
        = ProcResult.exited 1) ∧
    (Driver.tryFrom "sqlite://app.db" = Except.ok Driver.Sqlite ∧
      (fun (_ : Driver) => (none : Option Unit)) Driver.Sqlite = none ∧
      database_metadata (fun _ => none) "sqlite://app.db"
        = ProcResult.panicked) :=
  ⟨⟨rfl, (c9_no_error_channel (fun _ => some ()) "ftp://host/db").1
      (Error.E "driver not support") rfl⟩,
   ⟨rfl, rfl, (c9_no_error_channel (fun _ => none) "sqlite://app.db").2.1
      Driver.Sqlite rfl rfl⟩⟩

/-- C10: the `Display` rendering of `ColumnType` is the constant string
`BIGINT` on every variant, so the rendering cannot distinguish any two
canonical types. -/
theorem c10_display_constant :
    (∀ t : ColumnType, ColumnType.display t = "BIGINT") ∧
    (∀ t1 t2 : ColumnType, ColumnType.display t1 = ColumnType.display t2) := by
  have h : ∀ t : ColumnType, ColumnType.display t = "BIGINT" := by
    intro t
    cases t <;> rfl
  exact ⟨h, fun t1 t2 => (h t1).trans (h t2).symm⟩
